import Mathlib

/-!
Shallow embedding of the delegated-authorization demo (toy OAuth 2.0 servers,
a CAP delegation service, and a verifiable-credential verifier), together with
theorems settling the specification claims about it.

Conventions of the embedding:
* Python `time.time()` is passed explicitly as `now : Nat` (seconds).
* Module-level mutable dictionaries (`AUTHORIZATION_CODES`, `ACCESS_TOKENS`)
  become association lists threaded through the functions as explicit state.
* PyJWT signing is modelled symbolically: a signed token carries its claim set
  and a signature that is the pair (claims, key); `jwt.decode` recomputes the
  signature over the carried claims and compares, then checks the `exp` claim
  (a token is expired when `exp ≤ now`, matching PyJWT's leeway-0 rule that a
  token is valid strictly before its expiry instant).
* Python exceptions raised by the engine become `Except`/sum results; the
  distinct `detail` strings of the source become distinct error constructors.
-/

/-- Association-list lookup with Python-dict semantics: the first binding of a
key wins (insertions below always place the fresh binding at the head and drop
older bindings of the same key, so lookup agrees with `dict.__getitem__`). -/
def alookup {β : Type} (k : String) : List (String × β) → Option β
  | [] => none
  | (k', v) :: rest => if k' = k then some v else alookup k rest

/-- Remove every binding of key `k`, modelling Python's `del d[k]`. -/
def aerase {β : Type} (k : String) : List (String × β) → List (String × β)
  | [] => []
  | p :: rest => if p.1 = k then aerase k rest else p :: aerase k rest

theorem alookup_aerase_self {β : Type} (k : String) (l : List (String × β)) :
    alookup k (aerase k l) = none := by
  induction l with
  | nil => rfl
  | cons p rest ih =>
    by_cases h : p.1 = k
    · simpa [aerase, h] using ih
    · simpa [aerase, alookup, h] using ih

theorem alookup_aerase_ne {β : Type} (k k' : String) (l : List (String × β))
    (h : k' ≠ k) : alookup k' (aerase k l) = alookup k' l := by
  induction l with
  | nil => rfl
  | cons p rest ih =>
    by_cases hp : p.1 = k
    · have hne : k ≠ k' := fun hc => h hc.symm
      simpa [aerase, alookup, hp, hne] using ih
    · by_cases hk' : p.1 = k'
      · simp [aerase, alookup, hp, hk', h]
      · simpa [aerase, alookup, hp, hk'] using ih

instance exceptDecidableEq {ε α : Type} [DecidableEq ε] [DecidableEq α] :
    DecidableEq (Except ε α) := fun x y =>
  match x, y with
  | .ok a, .ok b =>
    if h : a = b then .isTrue (by rw [h])
    else .isFalse (by intro hc; cases hc; exact h rfl)
  | .ok _, .error _ => .isFalse (by intro hc; cases hc)
  | .error _, .ok _ => .isFalse (by intro hc; cases hc)
  | .error e, .error f =>
    if h : e = f then .isTrue (by rw [h])
    else .isFalse (by intro hc; cases hc; exact h rfl)

/-- A symbolically signed JWT: the claim set plus a signature modelled as the
MAC input (claims, key). Verification recomputes the pair and compares, which
captures exactly "the signature matches the recomputed signature over the
claims with this key" without modelling HMAC-SHA256 itself. -/
structure Jwt (C : Type) where
  claims : C
  sig : C × String
deriving DecidableEq, Repr

/-- Model of `jwt.encode(payload, key)`: sign the claims with the key. -/
def jwtEncode {C : Type} (claims : C) (key : String) : Jwt C :=
  ⟨claims, (claims, key)⟩

/-- The two PyJWT failure modes the source catches. -/
inductive JwtError
  | expiredSignature
  | invalidToken
deriving DecidableEq, Repr

/-- Model of `jwt.decode(token, key)` for payloads carrying a numeric `exp` claim:
signature is checked first (a tampered token is `invalidToken` even if its
claimed expiry lies in the past), then the expiry claim. -/
def jwtDecodeExp {C : Type} [DecidableEq C] (getExp : C → Nat)
    (tok : Jwt C) (key : String) (now : Nat) : Except JwtError C :=
  if tok.sig = (tok.claims, key) then
    if getExp tok.claims ≤ now then .error .expiredSignature
    else .ok tok.claims
  else .error .invalidToken

/-- Model of `jwt.decode(token, key)` for payloads with no numeric `exp` claim (the
verifiable credentials carry only an `expirationDate` string, which PyJWT does
not interpret): signature check only. -/
def jwtDecodeSigOnly {C : Type} [DecidableEq C]
    (tok : Jwt C) (key : String) : Except JwtError C :=
  if tok.sig = (tok.claims, key) then .ok tok.claims else .error .invalidToken

theorem jwtDecodeExp_encode {C : Type} [DecidableEq C] (getExp : C → Nat)
    (c : C) (key : String) (now : Nat) :
    jwtDecodeExp getExp (jwtEncode c key) key now =
      if getExp c ≤ now then .error .expiredSignature else .ok c := by
  simp [jwtDecodeExp, jwtEncode]

theorem jwtDecodeExp_ok {C : Type} [DecidableEq C] (getExp : C → Nat)
    (tok : Jwt C) (key : String) (now : Nat) (c : C)
    (h : jwtDecodeExp getExp tok key now = .ok c) :
    c = tok.claims ∧ tok.sig = (tok.claims, key) ∧ now < getExp tok.claims := by
  unfold jwtDecodeExp at h
  split at h
  · split at h
    · cases h
    · rename_i hsig hexp
      cases h
      exact ⟨rfl, hsig, Nat.lt_of_not_le hexp⟩
  · cases h

namespace OauthServer

/-! Embedding of `src/src/oauth_server.py` (the FastAPI toy OAuth server). -/

def JWT_SECRET : String := "MY_SUPER_SECRET_KEY"

/-- The payload built by `create_access_token`: note it carries no `type`
claim, only `sub`, `scope` (a single space-separated string), `iat`, `exp`. -/
structure AccessPayload where
  sub : String
  scope : String
  iat : Nat
  exp : Nat
deriving DecidableEq, Repr

/-- Embedding of `create_access_token(user_id, scope, expires_in)` at clock `now`. -/
def create_access_token (user_id scope : String) (expires_in : Nat) (now : Nat) :
    Jwt AccessPayload :=
  jwtEncode { sub := user_id, scope := scope, iat := now, exp := now + expires_in }
    JWT_SECRET

/-- One entry of `AUTHORIZATION_CODES`. -/
structure CodeInfo where
  user_id : String
  scope : String
  client_id : String
  expires_at : Nat
deriving DecidableEq, Repr

/-- One entry of the client registry `FAKE_CLIENTS`. -/
structure ClientInfo where
  client_secret : String
  redirect_uris : List String
deriving DecidableEq, Repr

def FAKE_CLIENTS : List (String × ClientInfo) :=
  [("demo", { client_secret := "demo-secret",
              redirect_uris := ["http://localhost:9000/callback"] })]

/-- Body of `POST /oauth/token`. -/
structure TokenRequest where
  client_id : String
  client_secret : String
  grant_type : String
  code : String
deriving DecidableEq, Repr

structure TokenResponse where
  access_token : Jwt AccessPayload
  token_type : String
  scope : String
  expires_in : Nat
deriving DecidableEq, Repr

/-- The module-level mutable stores of `oauth_server.py`
(`AUTHORIZATION_CODES` and `ACCESS_TOKENS`; the latter maps token → True, so a
plain list of tokens). -/
structure OauthState where
  authorization_codes : List (String × CodeInfo)
  access_tokens : List (Jwt AccessPayload)
deriving DecidableEq, Repr

/-- The `HTTPException` details raised by `token_exchange`, one constructor per
distinct `detail` string. -/
inductive ExchangeError
  | unknownClientId
  | invalidClientSecret
  | unsupportedGrantType
  | invalidOrExpiredCode
  | mismatchedClientId
  | codeExpired
deriving DecidableEq, Repr

/-- The approved-consent branch of `authorize_post`: mint `code` and store it
with `expires_at = now + 300` ("code valid for 5 min"). -/
def issue_code (code user_id scope client_id : String) (now : Nat)
    (st : OauthState) : OauthState :=
  { st with authorization_codes :=
      (code, { user_id := user_id, scope := scope, client_id := client_id,
               expires_at := now + 300 }) :: aerase code st.authorization_codes }

/-- Embedding of `token_exchange` (`POST /oauth/token`). Returns the HTTP outcome paired
with the resulting store state; every failure path raises before mutating, so
it returns the input state unchanged. -/
def token_exchange (clients : List (String × ClientInfo)) (now : Nat)
    (data : TokenRequest) (st : OauthState) :
    Except ExchangeError TokenResponse × OauthState :=
  match alookup data.client_id clients with
  | none => (.error .unknownClientId, st)
  | some client_info =>
    if client_info.client_secret ≠ data.client_secret then
      (.error .invalidClientSecret, st)
    else if data.grant_type ≠ "authorization_code" then
      (.error .unsupportedGrantType, st)
    else
      match alookup data.code st.authorization_codes with
      | none => (.error .invalidOrExpiredCode, st)
      | some code_info =>
        if code_info.client_id ≠ data.client_id then
          (.error .mismatchedClientId, st)
        else if code_info.expires_at < now then
          (.error .codeExpired, st)
        else
          let tok := create_access_token code_info.user_id code_info.scope 3600 now
          (.ok { access_token := tok, token_type := "Bearer",
                 scope := code_info.scope, expires_in := 3600 },
           { authorization_codes := aerase data.code st.authorization_codes,
             access_tokens := tok :: st.access_tokens })

/-- The `HTTPException` details raised by the `/oauth/validate` endpoint. -/
inductive ValidateError
  | unknownOrRevokedToken
  | tokenExpired
  | invalidToken
deriving DecidableEq, Repr

/-- Embedding of `validate` (`POST /oauth/validate`): store membership, then `jwt.decode`
(signature + expiry). It performs no scope or type check. -/
def validate (st : OauthState) (now : Nat) (token : Jwt AccessPayload) :
    Except ValidateError AccessPayload :=
  if token ∈ st.access_tokens then
    match jwtDecodeExp AccessPayload.exp token JWT_SECRET now with
    | .ok payload => .ok payload
    | .error .expiredSignature => .error .tokenExpired
    | .error .invalidToken => .error .invalidToken
  else .error .unknownOrRevokedToken

end OauthServer

namespace FlaskServer

/-! Embedding of `src/src/server.py` (the Flask OAuth server + MCP tools).
Its access tokens are opaque handles resolved against the `ACCESS_TOKENS`
dictionary; `CodeInfo`/`ClientInfo` have the same shape as in
`oauth_server.py` and are reused. -/

/-- One entry of this server's `ACCESS_TOKENS` store. -/
structure TokenInfo where
  user_id : String
  scope : String
  expires_at : Nat
deriving DecidableEq, Repr

/-- The module-level stores `AUTHORIZATION_CODES` and `ACCESS_TOKENS`. -/
structure ServerState where
  authorization_codes : List (String × OauthServer.CodeInfo)
  access_tokens : List (String × TokenInfo)
deriving DecidableEq, Repr

def FAKE_CLIENTS : List (String × OauthServer.ClientInfo) :=
  [("demo", { client_secret := "demo-secret",
              redirect_uris := ["http://example.org/callback"] })]

/-- Accumulator pass for `pySplit`: walk the characters, flushing the
reversed accumulator at each whitespace run boundary. -/
def splitWsAux : List Char → List Char → List String
  | [], acc => if acc.isEmpty then [] else [String.mk acc.reverse]
  | c :: cs, acc =>
    if c.isWhitespace then
      if acc.isEmpty then splitWsAux cs []
      else String.mk acc.reverse :: splitWsAux cs []
    else splitWsAux cs (c :: acc)

/-- Python's `str.split()` with no arguments: split on whitespace runs,
yielding no empty pieces. -/
def pySplit (s : String) : List String := splitWsAux s.data []

/-- The `ToolError`s raised by `validate_access_token`, one per message. -/
inductive ToolError
  | invalidAccessToken
  | accessTokenExpired
  | insufficientScope
deriving DecidableEq, Repr

/-- Embedding of `validate_access_token(access_token, required_scope)`: store lookup, then
expiry, then `required_scope not in scope.split()` (exact membership in the
whitespace-split scope list). The source only reads `ACCESS_TOKENS`, so the
embedding returns the store state alongside the result. -/
def validate_access_token (st : ServerState) (now : Nat)
    (access_token required_scope : String) :
    Except ToolError TokenInfo × ServerState :=
  match alookup access_token st.access_tokens with
  | none => (.error .invalidAccessToken, st)
  | some token_info =>
    if token_info.expires_at < now then (.error .accessTokenExpired, st)
    else if required_scope ∈ pySplit token_info.scope then (.ok token_info, st)
    else (.error .insufficientScope, st)

/-- The approved branch of `confirm_consent`: store a fresh auth code with
`expires_at = now + 300` ("5min"). -/
def confirm_consent_issue (auth_code user_id client_id scope : String)
    (now : Nat) (st : ServerState) : ServerState :=
  { st with authorization_codes :=
      (auth_code, { user_id := user_id, scope := scope, client_id := client_id,
                    expires_at := now + 300 })
        :: aerase auth_code st.authorization_codes }

/-- The JSON error bodies returned by `oauth_token`, one per `error` string. -/
inductive OauthTokenError
  | invalidClientId
  | invalidClientSecret
  | invalidGrantType
  | invalidCode
  | mismatchedClient
  | codeExpired
deriving DecidableEq, Repr

structure OauthTokenResponse where
  access_token : String
  token_type : String
  scope : String
  expires_in : Nat
deriving DecidableEq, Repr

/-- Embedding of `oauth_token` (`POST /oauth/token` of the Flask server). `fresh_token`
stands for the `secrets.token_urlsafe(32)` value drawn on the success path.
Every failure path returns before mutating either store; on success the new
access token is stored and then the code is deleted. -/
def oauth_token (clients : List (String × OauthServer.ClientInfo)) (now : Nat)
    (fresh_token : String) (client_id client_secret grant_type code : String)
    (st : ServerState) : Except OauthTokenError OauthTokenResponse × ServerState :=
  match alookup client_id clients with
  | none => (.error .invalidClientId, st)
  | some client_info =>
    if client_info.client_secret ≠ client_secret then
      (.error .invalidClientSecret, st)
    else if grant_type ≠ "authorization_code" then
      (.error .invalidGrantType, st)
    else
      match alookup code st.authorization_codes with
      | none => (.error .invalidCode, st)
      | some code_info =>
        if code_info.client_id ≠ client_id then
          (.error .mismatchedClient, st)
        else if code_info.expires_at < now then
          (.error .codeExpired, st)
        else
          (.ok { access_token := fresh_token, token_type := "Bearer",
                 scope := code_info.scope, expires_in := 3600 },
           { authorization_codes := aerase code st.authorization_codes,
             access_tokens :=
               (fresh_token, { user_id := code_info.user_id,
                               scope := code_info.scope,
                               expires_at := now + 3600 })
                 :: aerase fresh_token st.access_tokens })

end FlaskServer

namespace CapMain

/-! Embedding of `src/main.py` (CAP login/delegate, delegation agent, and the
CX-portal service endpoints). Session and delegation tokens are JWTs signed
with the same secret over dict payloads; a single claims structure with
optional fields models both payload shapes (`.get` on a missing key → `none`).
-/

def JWT_SECRET : String := "MY_SUPER_SECRET_KEY"

/-- Claims of the JWTs minted in `main.py`. `cap_login` payloads carry only
`type`, `user_id`, `exp`; `cap_delegate` payloads also set `iss`, `agent_id`,
`scope`, `iat`. A session payload has no `scope` key at all. -/
structure MainClaims where
  type : String
  user_id : String
  exp : Nat
  iss : Option String := none
  agent_id : Option String := none
  scope : Option String := none
  iat : Option Nat := none
deriving DecidableEq, Repr

/-- Embedding of the `cap_login` success path: session token for the authenticated user,
expiring 30 minutes out. -/
def cap_login_token (user_id : String) (now : Nat) : Jwt MainClaims :=
  jwtEncode { type := "session", user_id := user_id, exp := now + 30 * 60 }
    JWT_SECRET

/-- The JSON error bodies returned by `cap_delegate`. -/
inductive CapError
  | invalidSessionTokenType
  | sessionTokenExpired
  | invalidSessionToken
deriving DecidableEq, Repr

/-- Embedding of `cap_delegate`: decode the presented session token, reject a non-`session`
`type` claim, then mint a `delegation` token for the requested `agent_id` and
`scope` (default `"READ_ACCOUNT"` when the request omits it). The requested
scope is embedded verbatim; no comparison against anything the session
carries. The append to `FAKE_DB["delegations"]` is reference-only bookkeeping
and is not part of the returned value. -/
def cap_delegate (now : Nat) (session_token : Jwt MainClaims)
    (agent_id : String) (scope_req : Option String) :
    Except CapError (Jwt MainClaims) :=
  match jwtDecodeExp MainClaims.exp session_token JWT_SECRET now with
  | .error .expiredSignature => .error .sessionTokenExpired
  | .error .invalidToken => .error .invalidSessionToken
  | .ok session_payload =>
    if session_payload.type ≠ "session" then .error .invalidSessionTokenType
    else
      let scope := scope_req.getD "READ_ACCOUNT"
      .ok (jwtEncode
        { type := "delegation", iss := some "CAP-Prototype",
          user_id := session_payload.user_id, agent_id := some agent_id,
          scope := some scope, iat := some now, exp := now + 3600 }
        JWT_SECRET)

/-- The JSON error bodies returned by the service endpoints. -/
inductive ServiceError
  | invalidDelegationTokenType
  | insufficientScope
  | delegationTokenExpired
  | invalidDelegationToken
deriving DecidableEq, Repr

/-- Embedding of `FAKE_DB["service_data"]`, restricted to the `account_info` field used by
`service_account`. -/
def service_data : List (String × String) :=
  [("u-alice-001", "Alice\x27s Account: [Balance: $1234.56]")]

/-- The scope test of `service_account`:
`delegation_payload.get("scope") not in ["READ_ACCOUNT", "FULL_ACCESS"]`. -/
def account_scope_ok (scope : Option String) : Bool :=
  match scope with
  | some s => s = "READ_ACCOUNT" ∨ s = "FULL_ACCESS"
  | none => false

/-- Embedding of `service_account`: decode the delegation token, require
`type == "delegation"`, require scope in `["READ_ACCOUNT", "FULL_ACCESS"]`,
then return the user's `account_info` (default `"No data found."`). -/
def service_account (now : Nat) (delegation_token : Jwt MainClaims) :
    Except ServiceError String :=
  match jwtDecodeExp MainClaims.exp delegation_token JWT_SECRET now with
  | .error .expiredSignature => .error .delegationTokenExpired
  | .error .invalidToken => .error .invalidDelegationToken
  | .ok delegation_payload =>
    if delegation_payload.type ≠ "delegation" then
      .error .invalidDelegationTokenType
    else if account_scope_ok delegation_payload.scope then
      .ok ((alookup delegation_payload.user_id service_data).getD "No data found.")
    else .error .insufficientScope

end CapMain

namespace Core

/-! Embedding of `src/src/core.py` (`DelegationToken`). -/

def JWT_SECRET : String := "MY_SECRET_KEY"

/-- Payload of `DelegationToken.create_token`. -/
structure CoreClaims where
  iss : String
  user_id : String
  agent_id : String
  scope : String
  exp : Nat
  iat : Nat
deriving DecidableEq, Repr

/-- Embedding of `DelegationToken.create_token(user_id, agent_id, scope, expiration_hours)`
at clock `now`. -/
def DelegationToken.create_token (user_id agent_id scope : String)
    (expiration_hours : Nat) (now : Nat) : Jwt CoreClaims :=
  jwtEncode { iss := "CAP", user_id := user_id, agent_id := agent_id,
              scope := scope, exp := now + expiration_hours * 3600, iat := now }
    JWT_SECRET

/-- Result of `DelegationToken.validate_token`: the decoded claims, or one of
the two error dicts the source returns. -/
inductive CoreValidateResult
  | ok (claims : CoreClaims)
  | errTokenExpired
  | errInvalidToken
deriving DecidableEq, Repr

/-- Embedding of `DelegationToken.validate_token(token)` at clock `now`. -/
def DelegationToken.validate_token (now : Nat) (token : Jwt CoreClaims) :
    CoreValidateResult :=
  match jwtDecodeExp CoreClaims.exp token JWT_SECRET now with
  | .ok decoded => .ok decoded
  | .error .expiredSignature => .errTokenExpired
  | .error .invalidToken => .errInvalidToken

end Core

namespace VcVerifier

/-! Embedding of `src/vc_based/vc_verifier.py` (and the identically-checking
`verify_vc` of `vc_based/vc_mcp_server.py`). The VC payload built by
`vc_approach/vc_issuer.py` carries `issuanceDate`/`expirationDate` only as
formatted strings and no numeric `exp` claim, so `jwt.decode` performs no
expiry check on it: verification is signature-only plus the permission test.
-/

def ISSUER_SECRET : String := "super-secret-key"

structure CredentialSubject where
  id : String
  permissions : List String
deriving DecidableEq, Repr

/-- The VC claim set (fields of `CREDENTIAL_TEMPLATE` that verification
reads, plus the date strings). -/
structure VcClaims where
  issuer : String
  credentialSubject : CredentialSubject
  issuanceDate : String
  expirationDate : String
deriving DecidableEq, Repr

/-- The `HTTPException`s raised by `verify_vc`, one per detail string. -/
inductive VcError
  | vcExpired
  | invalidVc
  | lacksPermission
deriving DecidableEq, Repr

/-- Embedding of `verify_vc(vc_jwt)`: decode (signature check), then require
`"calendar.view" in payload["credentialSubject"]["permissions"]` (exact list
membership), returning the holder id. -/
def verify_vc (vc : Jwt VcClaims) : Except VcError String :=
  match jwtDecodeSigOnly vc ISSUER_SECRET with
  | .error _ => .error .invalidVc
  | .ok payload =>
    if "calendar.view" ∈ payload.credentialSubject.permissions then
      .ok payload.credentialSubject.id
    else .error .lacksPermission

end VcVerifier

namespace McpServer

/-! Embedding of `src/src/mcp_server.py`'s `validate_token`, which forwards
the token to the auth server's `/oauth/validate` endpoint and then checks
`"calendar.read" not in scope` — Python substring containment on the scope
STRING, not membership in a scope list. -/

/-- Tests whether `needle` occurs at the front of `hay`. -/
def frontMatches : List Char → List Char → Bool
  | [], _ => true
  | _ :: _, [] => false
  | c :: cs, d :: ds => c = d && frontMatches cs ds

/-- Tests whether `needle` occurs somewhere in `hay`. -/
def occursIn (needle hay : List Char) : Bool :=
  match hay with
  | [] => frontMatches needle []
  | _ :: rest => frontMatches needle hay || occursIn needle rest

/-- Python's `needle in hay` on strings: substring containment. -/
def strContains (hay needle : String) : Bool :=
  occursIn needle.data hay.data

/-- The `ToolError`s raised by `validate_token`, one per message. -/
inductive McpError
  | missingAccessToken
  | validationFailed
  | lacksRequiredScope
deriving DecidableEq, Repr

/-- Embedding of `validate_token(access_token)` given the auth server's response to
`POST /oauth/validate` (an HTTP 401 from the auth server surfaces as
`httpx.HTTPError`, hence `validationFailed`). On a valid response it checks
`"calendar.read" not in scope` — substring containment in the scope string. -/
def validate_token
    (response : Except OauthServer.ValidateError OauthServer.AccessPayload) :
    Except McpError OauthServer.AccessPayload :=
  match response with
  | .error _ => .error .validationFailed
  | .ok payload =>
    if strContains payload.scope "calendar.read" then .ok payload
    else .error .lacksRequiredScope

end McpServer

namespace Fixtures

/-! Concrete sample values used to evaluate the embedded functions on closed
inputs (witnesses and counterexamples). -/

/-- A well-formed `/oauth/token` request from the registered `demo` client. -/
def codeReq : OauthServer.TokenRequest :=
  { client_id := "demo", client_secret := "demo-secret",
    grant_type := "authorization_code", code := "CODE-A" }

/-- FastAPI-server state holding one freshly minted code for `demo`. -/
def stWithCode : OauthServer.OauthState :=
  { authorization_codes :=
      [("CODE-A", { user_id := "u-alice-001", scope := "calendar.read",
                    client_id := "demo", expires_at := 300 })],
    access_tokens := [] }

/-- The state after `codeReq` is redeemed against `stWithCode` at time 0. -/
def stAfter : OauthServer.OauthState :=
  { authorization_codes := [],
    access_tokens :=
      [OauthServer.create_access_token "u-alice-001" "calendar.read" 3600 0] }

/-- Flask-server state holding one freshly minted code for `demo`. -/
def fStWithCode : FlaskServer.ServerState :=
  { authorization_codes :=
      [("CODE-B", { user_id := "u-alice-001", scope := "calendar.read",
                    client_id := "demo", expires_at := 300 })],
    access_tokens := [] }

/-- The state after code `CODE-B` is redeemed at time 0 yielding handle
`TOK-1`. -/
def fStAfter : FlaskServer.ServerState :=
  { authorization_codes := [],
    access_tokens :=
      [("TOK-1", { user_id := "u-alice-001", scope := "calendar.read",
                   expires_at := 3600 })] }

/-- A session token as minted by `cap_login` for alice at time 0. -/
def session : Jwt CapMain.MainClaims := CapMain.cap_login_token "u-alice-001" 0

/-- The delegation token `cap_delegate` mints at time 0 for `agent-123` with
requested scope `FULL_ACCESS`. -/
def delegationFull : Jwt CapMain.MainClaims :=
  jwtEncode
    { type := "delegation", iss := some "CAP-Prototype",
      user_id := "u-alice-001", agent_id := some "agent-123",
      scope := some "FULL_ACCESS", iat := some 0, exp := 3600 }
    CapMain.JWT_SECRET

/-- A `core.py` delegation token: alice delegates `READ_ACCOUNT` to
`agent-123` for one hour starting at time 0. -/
def coreToken : Jwt Core.CoreClaims :=
  Core.DelegationToken.create_token "u-alice-001" "agent-123" "READ_ACCOUNT" 1 0

/-- A verifiable credential for alice granting `calendar.view`. -/
def vcGood : Jwt VcVerifier.VcClaims :=
  jwtEncode
    { issuer := "did:example:issuer",
      credentialSubject := { id := "did:example:alice",
                             permissions := ["calendar.view"] },
      issuanceDate := "2025-01-01T00:00:00Z",
      expirationDate := "2025-01-01T01:00:00Z" }
    VcVerifier.ISSUER_SECRET

end Fixtures

/-! ## Helper lemmas (shared across the claim theorems) -/

/-- Inversion of a successful `token_exchange`: every guard passed, and the
response and post-state have the shapes of the success branch. -/
theorem OauthServer.token_exchange_ok
    (clients : List (String × OauthServer.ClientInfo)) (now : Nat)
    (data : OauthServer.TokenRequest) (st : OauthServer.OauthState)
    (resp : OauthServer.TokenResponse) (st' : OauthServer.OauthState)
    (h : OauthServer.token_exchange clients now data st = (.ok resp, st')) :
    ∃ client_info code_info,
      alookup data.client_id clients = some client_info ∧
      client_info.client_secret = data.client_secret ∧
      data.grant_type = "authorization_code" ∧
      alookup data.code st.authorization_codes = some code_info ∧
      code_info.client_id = data.client_id ∧
      ¬ code_info.expires_at < now ∧
      resp = { access_token := OauthServer.create_access_token
                 code_info.user_id code_info.scope 3600 now,
               token_type := "Bearer", scope := code_info.scope,
               expires_in := 3600 } ∧
      st' = { authorization_codes := aerase data.code st.authorization_codes,
              access_tokens := OauthServer.create_access_token
                  code_info.user_id code_info.scope 3600 now
                :: st.access_tokens } := by
  unfold OauthServer.token_exchange at h
  split at h
  · simp at h
  · rename_i client_info hclient
    split at h
    · simp at h
    · rename_i hsec
      split at h
      · simp at h
      · rename_i hgt
        split at h
        · simp at h
        · rename_i code_info hcode
          split at h
          · simp at h
          · rename_i hcm
            split at h
            · simp at h
            · rename_i hexp
              rw [Prod.mk.injEq] at h
              obtain ⟨hresp, hst⟩ := h
              exact ⟨client_info, code_info, hclient, not_not.mp hsec,
                not_not.mp hgt, hcode, not_not.mp hcm, hexp,
                (Except.ok.injEq _ _ |>.mp hresp).symm, hst.symm⟩

/-- A failing `token_exchange` returns the store state unchanged. -/
theorem OauthServer.token_exchange_error_state
    (clients : List (String × OauthServer.ClientInfo)) (now : Nat)
    (data : OauthServer.TokenRequest) (st : OauthServer.OauthState)
    (r : Except OauthServer.ExchangeError OauthServer.TokenResponse)
    (st' : OauthServer.OauthState) (e : OauthServer.ExchangeError)
    (h : OauthServer.token_exchange clients now data st = (r, st'))
    (he : r = .error e) : st' = st := by
  subst he
  unfold OauthServer.token_exchange at h
  split at h <;> try exact (congrArg Prod.snd h).symm
  split at h <;> try exact (congrArg Prod.snd h).symm
  split at h <;> try exact (congrArg Prod.snd h).symm
  split at h <;> try exact (congrArg Prod.snd h).symm
  split at h <;> try exact (congrArg Prod.snd h).symm
  split at h <;> try exact (congrArg Prod.snd h).symm
  simp at h

/-- Running `token_exchange` on a request whose guards pass but whose code is absent
from the store fails with `invalidOrExpiredCode` and leaves the state. -/
theorem OauthServer.token_exchange_unknown_code
    (clients : List (String × OauthServer.ClientInfo)) (now : Nat)
    (data : OauthServer.TokenRequest) (st : OauthServer.OauthState)
    (client_info : OauthServer.ClientInfo)
    (hclient : alookup data.client_id clients = some client_info)
    (hsec : client_info.client_secret = data.client_secret)
    (hgt : data.grant_type = "authorization_code")
    (hcode : alookup data.code st.authorization_codes = none) :
    OauthServer.token_exchange clients now data st =
      (.error .invalidOrExpiredCode, st) := by
  simp [OauthServer.token_exchange, hclient, hsec, hgt, hcode]

/-- Inversion of a successful `oauth_token` (the Flask server). -/
theorem FlaskServer.oauth_token_ok
    (clients : List (String × OauthServer.ClientInfo)) (now : Nat)
    (fresh_token client_id client_secret grant_type code : String)
    (st : FlaskServer.ServerState) (resp : FlaskServer.OauthTokenResponse)
    (st' : FlaskServer.ServerState)
    (h : FlaskServer.oauth_token clients now fresh_token client_id
           client_secret grant_type code st = (.ok resp, st')) :
    ∃ client_info code_info,
      alookup client_id clients = some client_info ∧
      client_info.client_secret = client_secret ∧
      grant_type = "authorization_code" ∧
      alookup code st.authorization_codes = some code_info ∧
      code_info.client_id = client_id ∧
      ¬ code_info.expires_at < now ∧
      resp = { access_token := fresh_token, token_type := "Bearer",
               scope := code_info.scope, expires_in := 3600 } ∧
      st' = { authorization_codes := aerase code st.authorization_codes,
              access_tokens :=
                (fresh_token, { user_id := code_info.user_id,
                                scope := code_info.scope,
                                expires_at := now + 3600 })
                  :: aerase fresh_token st.access_tokens } := by
  unfold FlaskServer.oauth_token at h
  split at h
  · simp at h
  · rename_i client_info hclient
    split at h
    · simp at h
    · rename_i hsec
      split at h
      · simp at h
      · rename_i hgt
        split at h
        · simp at h
        · rename_i code_info hcode
          split at h
          · simp at h
          · rename_i hcm
            split at h
            · simp at h
            · rename_i hexp
              rw [Prod.mk.injEq] at h
              obtain ⟨hresp, hst⟩ := h
              exact ⟨client_info, code_info, hclient, not_not.mp hsec,
                not_not.mp hgt, hcode, not_not.mp hcm, hexp,
                (Except.ok.injEq _ _ |>.mp hresp).symm, hst.symm⟩

/-- A failing `oauth_token` returns the store state unchanged. -/
theorem FlaskServer.oauth_token_error_state
    (clients : List (String × OauthServer.ClientInfo)) (now : Nat)
    (fresh_token client_id client_secret grant_type code : String)
    (st : FlaskServer.ServerState)
    (r : Except FlaskServer.OauthTokenError FlaskServer.OauthTokenResponse)
    (st' : FlaskServer.ServerState) (e : FlaskServer.OauthTokenError)
    (h : FlaskServer.oauth_token clients now fresh_token client_id
           client_secret grant_type code st = (r, st'))
    (he : r = .error e) : st' = st := by
  subst he
  unfold FlaskServer.oauth_token at h
  split at h <;> try exact (congrArg Prod.snd h).symm
  split at h <;> try exact (congrArg Prod.snd h).symm
  split at h <;> try exact (congrArg Prod.snd h).symm
  split at h <;> try exact (congrArg Prod.snd h).symm
  split at h <;> try exact (congrArg Prod.snd h).symm
  split at h <;> try exact (congrArg Prod.snd h).symm
  simp at h

/-- Running `oauth_token` on a request whose guards pass but whose code is absent
fails with `invalidCode` and leaves the state. -/
theorem FlaskServer.oauth_token_unknown_code
    (clients : List (String × OauthServer.ClientInfo)) (now : Nat)
    (fresh_token client_id client_secret grant_type code : String)
    (st : FlaskServer.ServerState) (client_info : OauthServer.ClientInfo)
    (hclient : alookup client_id clients = some client_info)
    (hsec : client_info.client_secret = client_secret)
    (hgt : grant_type = "authorization_code")
    (hcode : alookup code st.authorization_codes = none) :
    FlaskServer.oauth_token clients now fresh_token client_id client_secret
      grant_type code st = (.error .invalidCode, st) := by
  simp [FlaskServer.oauth_token, hclient, hsec, hgt, hcode]

/-- Running `token_exchange` on a stored but expired code fails with `codeExpired`
and leaves the state unchanged. -/
theorem OauthServer.token_exchange_expired_code
    (clients : List (String × OauthServer.ClientInfo)) (now : Nat)
    (data : OauthServer.TokenRequest) (st : OauthServer.OauthState)
    (client_info : OauthServer.ClientInfo) (code_info : OauthServer.CodeInfo)
    (hclient : alookup data.client_id clients = some client_info)
    (hsec : client_info.client_secret = data.client_secret)
    (hgt : data.grant_type = "authorization_code")
    (hcode : alookup data.code st.authorization_codes = some code_info)
    (hcm : code_info.client_id = data.client_id)
    (hexp : code_info.expires_at < now) :
    OauthServer.token_exchange clients now data st =
      (.error .codeExpired, st) := by
  simp [OauthServer.token_exchange, hclient, hsec, hgt, hcode, hcm, hexp]

/-- Running `oauth_token` on a stored but expired code fails with `codeExpired` and
leaves the state unchanged. -/
theorem FlaskServer.oauth_token_expired_code
    (clients : List (String × OauthServer.ClientInfo)) (now : Nat)
    (fresh_token client_id client_secret grant_type code : String)
    (st : FlaskServer.ServerState)
    (client_info : OauthServer.ClientInfo) (code_info : OauthServer.CodeInfo)
    (hclient : alookup client_id clients = some client_info)
    (hsec : client_info.client_secret = client_secret)
    (hgt : grant_type = "authorization_code")
    (hcode : alookup code st.authorization_codes = some code_info)
    (hcm : code_info.client_id = client_id)
    (hexp : code_info.expires_at < now) :
    FlaskServer.oauth_token clients now fresh_token client_id client_secret
      grant_type code st = (.error .codeExpired, st) := by
  simp [FlaskServer.oauth_token, hclient, hsec, hgt, hcode, hcm, hexp]

/-! ## Claim theorems -/

/-- C1: Redemption of an authorization code succeeds at most once. A
successful `token_exchange` (FastAPI server) or `oauth_token` (Flask server)
deletes the code from the authorization-code store in the state it returns
with the token, and any subsequent redemption presenting the same code
against that state fails with the unknown-or-expired-code error (the code is
no longer found in the store). -/
theorem claim1_redeem_at_most_once :
    (∀ clients now data st resp st',
      OauthServer.token_exchange clients now data st = (.ok resp, st') →
      alookup data.code st'.authorization_codes = none ∧
      ∀ now2, OauthServer.token_exchange clients now2 data st' =
        (.error .invalidOrExpiredCode, st')) ∧
    (∀ clients now ft cid csec gt code st resp st',
      FlaskServer.oauth_token clients now ft cid csec gt code st
        = (.ok resp, st') →
      alookup code st'.authorization_codes = none ∧
      ∀ now2 ft2, FlaskServer.oauth_token clients now2 ft2 cid csec gt code st'
        = (.error .invalidCode, st')) := by
  constructor
  · intro clients now data st resp st' h
    obtain ⟨ci, co, hclient, hsec, hgt, hcode, hcm, hexp, hresp, hst⟩ :=
      OauthServer.token_exchange_ok clients now data st resp st' h
    subst hst
    exact ⟨alookup_aerase_self _ _, fun now2 =>
      OauthServer.token_exchange_unknown_code clients now2 data _ ci hclient
        hsec hgt (alookup_aerase_self _ _)⟩
  · intro clients now ft cid csec gt code st resp st' h
    obtain ⟨ci, co, hclient, hsec, hgt, hcode, hcm, hexp, hresp, hst⟩ :=
      FlaskServer.oauth_token_ok clients now ft cid csec gt code st resp st' h
    subst hst
    exact ⟨alookup_aerase_self _ _, fun now2 ft2 =>
      FlaskServer.oauth_token_unknown_code clients now2 ft2 cid csec gt code _
        ci hclient hsec hgt (alookup_aerase_self _ _)⟩

/-- Witness for C1: the `demo` client redeems `CODE-A` at time 0; afterwards
the code is gone and a second identical redemption attempt at time 7 fails
with the unknown-or-expired-code error. -/
theorem claim1_redeem_at_most_once_witness :
    alookup "CODE-A" Fixtures.stAfter.authorization_codes = none ∧
    OauthServer.token_exchange OauthServer.FAKE_CLIENTS 7 Fixtures.codeReq
      Fixtures.stAfter = (.error .invalidOrExpiredCode, Fixtures.stAfter) :=
  have h := claim1_redeem_at_most_once.1 OauthServer.FAKE_CLIENTS 0
    Fixtures.codeReq Fixtures.stWithCode
    { access_token := OauthServer.create_access_token "u-alice-001"
        "calendar.read" 3600 0,
      token_type := "Bearer", scope := "calendar.read", expires_in := 3600 }
    Fixtures.stAfter (by decide)
  ⟨h.1, h.2 7⟩

/-- C7: Redemption is bound to the client the code was issued to. In both
servers a successful redemption implies the presented client id is registered,
the presented secret equals the registered secret, and the client id bound to
the code equals the presented one; presenting a different registered client id
(with its correct secret) fails with the mismatched-client error, and a wrong
secret fails with the invalid-client-secret error. In either failure the code
is never redeemed by the foreign client. -/
theorem claim7_code_bound_to_client :
    (∀ clients now data st resp st',
      OauthServer.token_exchange clients now data st = (.ok resp, st') →
      ∃ client_info code_info,
        alookup data.client_id clients = some client_info ∧
        client_info.client_secret = data.client_secret ∧
        alookup data.code st.authorization_codes = some code_info ∧
        code_info.client_id = data.client_id) ∧
    (∀ clients now data st client_info code_info,
      alookup data.client_id clients = some client_info →
      client_info.client_secret = data.client_secret →
      data.grant_type = "authorization_code" →
      alookup data.code st.authorization_codes = some code_info →
      code_info.client_id ≠ data.client_id →
      OauthServer.token_exchange clients now data st =
        (.error .mismatchedClientId, st)) ∧
    (∀ clients now data st client_info,
      alookup data.client_id clients = some client_info →
      client_info.client_secret ≠ data.client_secret →
      OauthServer.token_exchange clients now data st =
        (.error .invalidClientSecret, st)) ∧
    (∀ clients now ft cid csec gt code st resp st',
      FlaskServer.oauth_token clients now ft cid csec gt code st
        = (.ok resp, st') →
      ∃ client_info code_info,
        alookup cid clients = some client_info ∧
        client_info.client_secret = csec ∧
        alookup code st.authorization_codes = some code_info ∧
        code_info.client_id = cid) ∧
    (∀ clients now ft cid csec gt code st client_info code_info,
      alookup cid clients = some client_info →
      client_info.client_secret = csec →
      gt = "authorization_code" →
      alookup code st.authorization_codes = some code_info →
      code_info.client_id ≠ cid →
      FlaskServer.oauth_token clients now ft cid csec gt code st =
        (.error .mismatchedClient, st)) ∧
    (∀ clients now ft cid csec gt code st client_info,
      alookup cid clients = some client_info →
      client_info.client_secret ≠ csec →
      FlaskServer.oauth_token clients now ft cid csec gt code st =
        (.error .invalidClientSecret, st)) := by
  refine ⟨?_, ?_, ?_, ?_, ?_, ?_⟩
  · intro clients now data st resp st' h
    obtain ⟨ci, co, hclient, hsec, hgt, hcode, hcm, hexp, hresp, hst⟩ :=
      OauthServer.token_exchange_ok clients now data st resp st' h
    exact ⟨ci, co, hclient, hsec, hcode, hcm⟩
  · intro clients now data st ci co hclient hsec hgt hcode hcm
    simp [OauthServer.token_exchange, hclient, hsec, hgt, hcode, hcm]
  · intro clients now data st ci hclient hsec
    simp [OauthServer.token_exchange, hclient, hsec]
  · intro clients now ft cid csec gt code st resp st' h
    obtain ⟨ci, co, hclient, hsec, hgt, hcode, hcm, hexp, hresp, hst⟩ :=
      FlaskServer.oauth_token_ok clients now ft cid csec gt code st resp st' h
    exact ⟨ci, co, hclient, hsec, hcode, hcm⟩
  · intro clients now ft cid csec gt code st ci co hclient hsec hgt hcode hcm
    simp [FlaskServer.oauth_token, hclient, hsec, hgt, hcode, hcm]
  · intro clients now ft cid csec gt code st ci hclient hsec
    simp [FlaskServer.oauth_token, hclient, hsec]

/-- Witness for C7: a code bound to client `evil` (registered alongside
`demo`) cannot be redeemed by `demo`: the attempt fails with the
mismatched-client error, and a wrong secret from `demo` fails with the
invalid-client-secret error. -/
theorem claim7_code_bound_to_client_witness :
    OauthServer.token_exchange
      (("evil", { client_secret := "evil-secret", redirect_uris := [] })
        :: OauthServer.FAKE_CLIENTS) 0
      Fixtures.codeReq
      { authorization_codes :=
          [("CODE-A", { user_id := "u-alice-001", scope := "calendar.read",
                        client_id := "evil", expires_at := 300 })],
        access_tokens := [] } =
      (.error .mismatchedClientId,
       { authorization_codes :=
           [("CODE-A", { user_id := "u-alice-001", scope := "calendar.read",
                         client_id := "evil", expires_at := 300 })],
         access_tokens := [] }) :=
  claim7_code_bound_to_client.2.1
    (("evil", { client_secret := "evil-secret", redirect_uris := [] })
      :: OauthServer.FAKE_CLIENTS) 0 Fixtures.codeReq
    { authorization_codes :=
        [("CODE-A", { user_id := "u-alice-001", scope := "calendar.read",
                      client_id := "evil", expires_at := 300 })],
      access_tokens := [] }
    { client_secret := "demo-secret",
      redirect_uris := ["http://localhost:9000/callback"] }
    { user_id := "u-alice-001", scope := "calendar.read",
      client_id := "evil", expires_at := 300 }
    (by decide) (by decide) (by decide) (by decide) (by decide)

/-- C8: Every authorization code minted on user consent (the approved branch
of `authorize_post` on the FastAPI server, `confirm_consent` on the Flask
server) is stored with `expires_at = now + 300` (five minutes after its
creation time), and redeeming a code whose stored expiry has passed fails
with the code-expired rejection and yields no token. -/
theorem claim8_code_expiry_300s :
    (∀ code user scope client now st,
      alookup code
          (OauthServer.issue_code code user scope client now st).authorization_codes
        = some { user_id := user, scope := scope, client_id := client,
                 expires_at := now + 300 }) ∧
    (∀ code user client scope now st,
      alookup code
          (FlaskServer.confirm_consent_issue code user client scope now st).authorization_codes
        = some { user_id := user, scope := scope, client_id := client,
                 expires_at := now + 300 }) ∧
    (∀ clients now data st client_info code_info,
      alookup data.client_id clients = some client_info →
      client_info.client_secret = data.client_secret →
      data.grant_type = "authorization_code" →
      alookup data.code st.authorization_codes = some code_info →
      code_info.client_id = data.client_id →
      code_info.expires_at < now →
      OauthServer.token_exchange clients now data st =
        (.error .codeExpired, st)) ∧
    (∀ clients now ft cid csec gt code st client_info code_info,
      alookup cid clients = some client_info →
      client_info.client_secret = csec →
      gt = "authorization_code" →
      alookup code st.authorization_codes = some code_info →
      code_info.client_id = cid →
      code_info.expires_at < now →
      FlaskServer.oauth_token clients now ft cid csec gt code st =
        (.error .codeExpired, st)) := by
  refine ⟨?_, ?_, ?_, ?_⟩
  · intro code user scope client now st
    simp [OauthServer.issue_code, alookup]
  · intro code user client scope now st
    simp [FlaskServer.confirm_consent_issue, alookup]
  · intro clients now data st ci co hclient hsec hgt hcode hcm hexp
    exact OauthServer.token_exchange_expired_code clients now data st ci co
      hclient hsec hgt hcode hcm hexp
  · intro clients now ft cid csec gt code st ci co hclient hsec hgt hcode hcm hexp
    exact FlaskServer.oauth_token_expired_code clients now ft cid csec gt code
      st ci co hclient hsec hgt hcode hcm hexp

/-- Witness for C8: a code stored at time 0 carries expiry 300, and redeeming
it at time 301 fails with the code-expired error. -/
theorem claim8_code_expiry_300s_witness :
    alookup "CODE-A"
        (OauthServer.issue_code "CODE-A" "u-alice-001" "calendar.read" "demo" 0
          { authorization_codes := [], access_tokens := [] }).authorization_codes
      = some { user_id := "u-alice-001", scope := "calendar.read",
               client_id := "demo", expires_at := 300 } ∧
    OauthServer.token_exchange OauthServer.FAKE_CLIENTS 301 Fixtures.codeReq
      Fixtures.stWithCode = (.error .codeExpired, Fixtures.stWithCode) :=
  ⟨claim8_code_expiry_300s.1 "CODE-A" "u-alice-001" "calendar.read" "demo" 0
     { authorization_codes := [], access_tokens := [] },
   claim8_code_expiry_300s.2.2.1 OauthServer.FAKE_CLIENTS 301 Fixtures.codeReq
     Fixtures.stWithCode
     { client_secret := "demo-secret",
       redirect_uris := ["http://localhost:9000/callback"] }
     { user_id := "u-alice-001", scope := "calendar.read",
       client_id := "demo", expires_at := 300 }
     (by decide) (by decide) (by decide) (by decide) (by decide) (by decide)⟩

/-- C10: Failed redemption is atomic. Whenever `token_exchange` or
`oauth_token` fails — unknown client, wrong secret, wrong grant type, unknown
code, client mismatch, or expired code — the returned state equals the input
state; in particular a code past its expiry is not deleted by the failed
attempt and is still found in the store afterwards. -/
theorem claim10_failed_redemption_atomic :
    (∀ clients now data st r st' e,
      OauthServer.token_exchange clients now data st = (r, st') →
      r = .error e → st' = st) ∧
    (∀ clients now ft cid csec gt code st r st' e,
      FlaskServer.oauth_token clients now ft cid csec gt code st = (r, st') →
      r = .error e → st' = st) ∧
    (∀ clients now data st client_info code_info,
      alookup data.client_id clients = some client_info →
      client_info.client_secret = data.client_secret →
      data.grant_type = "authorization_code" →
      alookup data.code st.authorization_codes = some code_info →
      code_info.client_id = data.client_id →
      code_info.expires_at < now →
      (OauthServer.token_exchange clients now data st).2 = st ∧
      alookup data.code
          (OauthServer.token_exchange clients now data st).2.authorization_codes
        = some code_info) := by
  refine ⟨?_, ?_, ?_⟩
  · intro clients now data st r st' e h he
    exact OauthServer.token_exchange_error_state clients now data st r st' e h he
  · intro clients now ft cid csec gt code st r st' e h he
    exact FlaskServer.oauth_token_error_state clients now ft cid csec gt code
      st r st' e h he
  · intro clients now data st ci co hclient hsec hgt hcode hcm hexp
    have h := OauthServer.token_exchange_expired_code clients now data st ci co
      hclient hsec hgt hcode hcm hexp
    rw [h]
    exact ⟨rfl, hcode⟩

/-- Witness for C10: redeeming the expired `CODE-A` at time 301 leaves the
store unchanged and the expired code still present. -/
theorem claim10_failed_redemption_atomic_witness :
    (OauthServer.token_exchange OauthServer.FAKE_CLIENTS 301 Fixtures.codeReq
        Fixtures.stWithCode).2 = Fixtures.stWithCode ∧
    alookup "CODE-A"
        (OauthServer.token_exchange OauthServer.FAKE_CLIENTS 301
            Fixtures.codeReq Fixtures.stWithCode).2.authorization_codes
      = some { user_id := "u-alice-001", scope := "calendar.read",
               client_id := "demo", expires_at := 300 } :=
  claim10_failed_redemption_atomic.2.2 OauthServer.FAKE_CLIENTS 301
    Fixtures.codeReq Fixtures.stWithCode
    { client_secret := "demo-secret",
      redirect_uris := ["http://localhost:9000/callback"] }
    { user_id := "u-alice-001", scope := "calendar.read",
      client_id := "demo", expires_at := 300 }
    (by decide) (by decide) (by decide) (by decide) (by decide) (by decide)

/-- Inversion of a successful `cap_delegate`: the session token decoded with
type `session`, and the returned delegation token is signed over exactly the
requested scope (default `READ_ACCOUNT`), the session's principal, and a
one-hour expiry. -/
theorem CapMain.cap_delegate_ok (now : Nat) (session : Jwt CapMain.MainClaims)
    (agent_id : String) (scope_req : Option String)
    (tok : Jwt CapMain.MainClaims)
    (h : CapMain.cap_delegate now session agent_id scope_req = .ok tok) :
    session.claims.type = "session" ∧
    tok = jwtEncode
      { type := "delegation", iss := some "CAP-Prototype",
        user_id := session.claims.user_id, agent_id := some agent_id,
        scope := some (scope_req.getD "READ_ACCOUNT"), iat := some now,
        exp := now + 3600 } CapMain.JWT_SECRET := by
  unfold CapMain.cap_delegate at h
  split at h
  · cases h
  · cases h
  · rename_i p hdec
    split at h
    · cases h
    · rename_i htype
      obtain ⟨hp, hsig, hexp⟩ :=
        jwtDecodeExp_ok CapMain.MainClaims.exp session CapMain.JWT_SECRET now p hdec
      subst hp
      cases h
      exact ⟨not_not.mp htype, rfl⟩

/-- The endpoint `cap_delegate` rejects a token whose decoded `type` claim is not
`session`. -/
theorem CapMain.cap_delegate_wrong_type (now : Nat)
    (tok : Jwt CapMain.MainClaims) (agent_id : String)
    (scope_req : Option String) (p : CapMain.MainClaims)
    (hdec : jwtDecodeExp CapMain.MainClaims.exp tok CapMain.JWT_SECRET now = .ok p)
    (htype : p.type ≠ "session") :
    CapMain.cap_delegate now tok agent_id scope_req =
      .error .invalidSessionTokenType := by
  simp [CapMain.cap_delegate, hdec, htype]

/-- Inversion of a successful `service_account`. -/
theorem CapMain.service_account_ok (now : Nat)
    (tok : Jwt CapMain.MainClaims) (out : String)
    (h : CapMain.service_account now tok = .ok out) :
    tok.claims.type = "delegation" ∧
    CapMain.account_scope_ok tok.claims.scope = true ∧
    out = (alookup tok.claims.user_id CapMain.service_data).getD
      "No data found." := by
  unfold CapMain.service_account at h
  split at h
  · cases h
  · cases h
  · rename_i p hdec
    split at h
    · cases h
    · rename_i htype
      obtain ⟨hp, hsig, hexp⟩ :=
        jwtDecodeExp_ok CapMain.MainClaims.exp tok CapMain.JWT_SECRET now p hdec
      subst hp
      split at h
      · rename_i hscope
        cases h
        exact ⟨not_not.mp htype, hscope, rfl⟩
      · cases h

/-- The endpoint `service_account` rejects a token whose decoded `type` claim is not
`delegation`. -/
theorem CapMain.service_account_wrong_type (now : Nat)
    (tok : Jwt CapMain.MainClaims) (p : CapMain.MainClaims)
    (hdec : jwtDecodeExp CapMain.MainClaims.exp tok CapMain.JWT_SECRET now = .ok p)
    (htype : p.type ≠ "delegation") :
    CapMain.service_account now tok = .error .invalidDelegationTokenType := by
  simp [CapMain.service_account, hdec, htype]

/-- C5: Token `type` claims are checked against the relying context.
`cap_delegate` (which requires a session token) rejects any token whose
decoded `type` is not `session` — in particular a delegation-type token —
with the invalid-session-token-type error, and `service_account` (which
requires a delegation token) rejects any token whose decoded `type` is not
`delegation` — in particular a session-type token — with the
invalid-delegation-token-type error; conversely both accept only tokens of
their expected type. -/
theorem claim5_token_type_checked :
    (∀ now tok agent_id scope_req p,
      jwtDecodeExp CapMain.MainClaims.exp tok CapMain.JWT_SECRET now = .ok p →
      p.type = "delegation" →
      CapMain.cap_delegate now tok agent_id scope_req =
        .error .invalidSessionTokenType) ∧
    (∀ now tok p,
      jwtDecodeExp CapMain.MainClaims.exp tok CapMain.JWT_SECRET now = .ok p →
      p.type = "session" →
      CapMain.service_account now tok =
        .error .invalidDelegationTokenType) ∧
    (∀ now tok agent_id scope_req out,
      CapMain.cap_delegate now tok agent_id scope_req = .ok out →
      tok.claims.type = "session") ∧
    (∀ now tok out,
      CapMain.service_account now tok = .ok out →
      tok.claims.type = "delegation") := by
  refine ⟨?_, ?_, ?_, ?_⟩
  · intro now tok agent_id scope_req p hdec htype
    exact CapMain.cap_delegate_wrong_type now tok agent_id scope_req p hdec
      (by rw [htype]; decide)
  · intro now tok p hdec htype
    exact CapMain.service_account_wrong_type now tok p hdec
      (by rw [htype]; decide)
  · intro now tok agent_id scope_req out h
    exact (CapMain.cap_delegate_ok now tok agent_id scope_req out h).1
  · intro now tok out h
    exact (CapMain.service_account_ok now tok out h).1

/-- Witness for C5: the delegation token minted for `agent-123` is rejected
by `cap_delegate` (session context), and alice's session token is rejected by
`service_account` (delegation context). -/
theorem claim5_token_type_checked_witness :
    CapMain.cap_delegate 0 Fixtures.delegationFull "agent-9" none =
      .error .invalidSessionTokenType ∧
    CapMain.service_account 0 Fixtures.session =
      .error .invalidDelegationTokenType :=
  ⟨claim5_token_type_checked.1 0 Fixtures.delegationFull "agent-9" none
     (Fixtures.delegationFull.claims) (by decide) (by decide),
   claim5_token_type_checked.2.1 0 Fixtures.session
     (Fixtures.session.claims) (by decide) (by decide)⟩

/-- Counterexample to C3: alice's session token carries no scope claim at all
(`cap_login` issues only {type, user_id, exp}), yet `cap_delegate` grants the
requested scope `FULL_ACCESS` outright — a delegation scope strictly larger
than anything the delegating session carries, neither rejected nor clamped. -/
theorem claim3_counterexample :
    Fixtures.session.claims.scope = none ∧
    CapMain.cap_delegate 0 Fixtures.session "agent-123" (some "FULL_ACCESS") =
      .ok Fixtures.delegationFull ∧
    Fixtures.delegationFull.claims.scope = some "FULL_ACCESS" := by
  refine ⟨rfl, ?_, rfl⟩
  decide

/-- C3 as amended: `cap_delegate` performs no subset check of the requested
scope against the delegating session. For every valid session token it mints
a delegation token whose scope is exactly the requested scope (default
`READ_ACCOUNT` when absent), whatever that is; the session's claims contain
no scope field to compare against. -/
theorem claim3_amended_delegate_scope_unchecked
    (now : Nat) (session : Jwt CapMain.MainClaims) (agent_id : String)
    (scope_req : Option String) (tok : Jwt CapMain.MainClaims)
    (h : CapMain.cap_delegate now session agent_id scope_req = .ok tok) :
    tok.claims.scope = some (scope_req.getD "READ_ACCOUNT") ∧
    tok.claims.type = "delegation" ∧
    tok.claims.user_id = session.claims.user_id ∧
    tok.claims.exp = now + 3600 := by
  obtain ⟨htype, htok⟩ :=
    CapMain.cap_delegate_ok now session agent_id scope_req tok h
  subst htok
  exact ⟨rfl, rfl, rfl, rfl⟩

/-- Witness for C3's amended claim: delegating with requested scope
`FULL_ACCESS` from alice's (scope-less) session yields a delegation token
scoped `FULL_ACCESS`. -/
theorem claim3_amended_witness :
    Fixtures.delegationFull.claims.scope =
      some ((some "FULL_ACCESS").getD "READ_ACCOUNT") ∧
    Fixtures.delegationFull.claims.type = "delegation" ∧
    Fixtures.delegationFull.claims.user_id =
      Fixtures.session.claims.user_id ∧
    Fixtures.delegationFull.claims.exp = 0 + 3600 :=
  claim3_amended_delegate_scope_unchecked 0 Fixtures.session "agent-123"
    (some "FULL_ACCESS") Fixtures.delegationFull (by decide)

/-- C9: Token verification is side-effect-free. `validate_access_token` (the
opaque-handle verifier of the Flask server, a lookup-only read) returns the
store state unchanged on success and on every failure, and calling it again
on the state it returns gives the identical outcome; `verify_vc` (the
self-contained variant) takes no store at all — its result depends only on
the credential, as its type in this embedding shows. -/
theorem claim9_verification_side_effect_free :
    ∀ st now tok required_scope,
      (FlaskServer.validate_access_token st now tok required_scope).2 = st ∧
      FlaskServer.validate_access_token
          (FlaskServer.validate_access_token st now tok required_scope).2
          now tok required_scope
        = FlaskServer.validate_access_token st now tok required_scope := by
  intro st now tok required_scope
  have hframe :
      (FlaskServer.validate_access_token st now tok required_scope).2 = st := by
    unfold FlaskServer.validate_access_token
    split
    · rfl
    · split
      · rfl
      · split <;> rfl
  exact ⟨hframe, by rw [hframe]⟩

/-- Counterexample to C2: the verifier cited by the claim (`/oauth/validate`
on the FastAPI server, fed by `create_access_token`) takes no required scope
or expected type at all and checks neither — the issued payload does not even
carry a `type` claim. Verifying a stored, unexpired token whose scope set is
{calendar.read} succeeds although a required scope `calendar.write` is not
contained in it, so "verification succeeds iff the required scope is
contained in C.scope and the expected type equals C.type and now < C.expiry"
fails in its only-if direction. -/
theorem claim2_counterexample :
    OauthServer.validate Fixtures.stAfter 0
        (OauthServer.create_access_token "u-alice-001" "calendar.read" 3600 0)
      = .ok { sub := "u-alice-001", scope := "calendar.read",
              iat := 0, exp := 3600 } ∧
    "calendar.write" ∉ FlaskServer.pySplit "calendar.read" := by
  constructor
  · decide
  · decide

/-- C2 as amended: for every claim set (user, scope, iat = now0,
exp = now0 + expires_in) signed by `create_access_token` with the server key
and recorded in the token store, `validate` succeeds iff the current time is
before the expiry, and on success returns the full signed claim set
unchanged; it performs no scope or type check (the counterexample shows both
are absent). -/
theorem claim2_amended_validate_roundtrip
    (user scope : String) (expires_in now0 now : Nat)
    (st : OauthServer.OauthState)
    (htok : OauthServer.create_access_token user scope expires_in now0
      ∈ st.access_tokens) :
    OauthServer.validate st now
        (OauthServer.create_access_token user scope expires_in now0)
      = if now0 + expires_in ≤ now then .error .tokenExpired
        else .ok { sub := user, scope := scope, iat := now0,
                   exp := now0 + expires_in } := by
  unfold OauthServer.create_access_token at htok
  unfold OauthServer.validate OauthServer.create_access_token
  rw [if_pos htok, jwtDecodeExp_encode]
  by_cases hexp : now0 + expires_in ≤ now
  · simp [hexp]
  · simp [hexp]

/-- Witness for C2's amended claim: the stored token from time 0 validates at
time 10 (before expiry 3600) to its full claim set. -/
theorem claim2_amended_witness :
    OauthServer.validate Fixtures.stAfter 10
        (OauthServer.create_access_token "u-alice-001" "calendar.read" 3600 0)
      = if 0 + 3600 ≤ 10 then .error .tokenExpired
        else .ok { sub := "u-alice-001", scope := "calendar.read",
                   iat := 0, exp := 0 + 3600 } :=
  claim2_amended_validate_roundtrip "u-alice-001" "calendar.read" 3600 0 10
    Fixtures.stAfter (by decide)

/-- Counterexample to C4: the MCP-server verifier (`validate_token` in
`mcp_server.py`) checks the required scope by Python substring containment on
the scope string, not exact membership: it accepts a token whose only scope
is `calendar.readonly` although `calendar.read` is not a member of that
token's scope set, and (per the claim) it should then have failed with the
insufficient-scope error. -/
theorem claim4_counterexample :
    McpServer.validate_token
        (.ok { sub := "u-alice-001", scope := "calendar.readonly",
               iat := 0, exp := 3600 })
      = .ok { sub := "u-alice-001", scope := "calendar.readonly",
              iat := 0, exp := 3600 } ∧
    "calendar.read" ∉ FlaskServer.pySplit "calendar.readonly" := by
  constructor
  · decide
  · decide

/-- C4 as amended: the two verifiers disagree. The Flask server's
`validate_access_token` does check the required scope by exact membership in
the whitespace-split scope list, failing with the insufficient-scope error
exactly when the required scope is not a member (for a known, unexpired
token); but the MCP server's `validate_token` checks substring containment of
`calendar.read` in the scope string, which also accepts supersets such as
`calendar.readonly`. -/
theorem claim4_amended_scope_membership :
    (∀ st now tok required_scope ti,
      alookup tok st.access_tokens = some ti →
      ¬ ti.expires_at < now →
      (FlaskServer.validate_access_token st now tok required_scope).1 =
        if required_scope ∈ FlaskServer.pySplit ti.scope then .ok ti
        else .error .insufficientScope) ∧
    (∀ payload,
      McpServer.validate_token (.ok payload) =
        if McpServer.strContains payload.scope "calendar.read" then .ok payload
        else .error .lacksRequiredScope) := by
  constructor
  · intro st now tok required_scope ti hlook hexp
    simp only [FlaskServer.validate_access_token, hlook, hexp, if_false]
    split <;> rfl
  · intro payload
    rfl

/-- Witness for C4's amended claim: the opaque token `TOK-1` scoped
`calendar.read` fails a `calendar.write` requirement with the
insufficient-scope error. -/
theorem claim4_amended_witness :
    (FlaskServer.validate_access_token Fixtures.fStAfter 5 "TOK-1"
        "calendar.write").1 =
      if "calendar.write" ∈ FlaskServer.pySplit "calendar.read" then
        .ok { user_id := "u-alice-001", scope := "calendar.read",
              expires_at := 3600 }
      else .error .insufficientScope :=
  claim4_amended_scope_membership.1 Fixtures.fStAfter 5 "TOK-1"
    "calendar.write"
    { user_id := "u-alice-001", scope := "calendar.read", expires_at := 3600 }
    (by decide) (by decide)

/-- Inversion of a successful signature-only decode. -/
theorem jwtDecodeSigOnly_ok {C : Type} [DecidableEq C] (tok : Jwt C)
    (key : String) (c : C)
    (h : jwtDecodeSigOnly tok key = .ok c) :
    c = tok.claims ∧ tok.sig = (tok.claims, key) := by
  unfold jwtDecodeSigOnly at h
  split at h
  · rename_i hsig
    cases h
    exact ⟨rfl, hsig⟩
  · cases h

/-- C6: Tampering with the claims of an issued token without re-signing makes
verification fail as an invalid signature. For `core.py`'s `DelegationToken`:
any token carrying the signature of a `create_token` result over different
claims is rejected as `Invalid token`; for the verifiable-credential
verifier: any credential carrying an issuer signature over different claims
is rejected as `Invalid VC`. Conversely, verification only ever succeeds
returning exactly the claims the signature was computed over. -/
theorem claim6_tampering_rejected :
    (∀ user_id agent_id scope hours now now2 c',
      c' ≠ (Core.DelegationToken.create_token user_id agent_id scope hours
              now).claims →
      Core.DelegationToken.validate_token now2
          ⟨c', (Core.DelegationToken.create_token user_id agent_id scope hours
                  now).sig⟩
        = .errInvalidToken) ∧
    (∀ (c c' : VcVerifier.VcClaims), c' ≠ c →
      VcVerifier.verify_vc ⟨c', (jwtEncode c VcVerifier.ISSUER_SECRET).sig⟩
        = .error .invalidVc) ∧
    (∀ now tok d, Core.DelegationToken.validate_token now tok = .ok d →
      d = tok.claims ∧ tok.sig = (tok.claims, Core.JWT_SECRET)) ∧
    (∀ tok holder, VcVerifier.verify_vc tok = .ok holder →
      tok.sig = (tok.claims, VcVerifier.ISSUER_SECRET) ∧
      holder = tok.claims.credentialSubject.id) := by
  refine ⟨?_, ?_, ?_, ?_⟩
  · intro user_id agent_id scope hours now now2 c' hne
    simp only [Core.DelegationToken.create_token, jwtEncode] at hne
    have hne' : ({ iss := "CAP", user_id := user_id, agent_id := agent_id,
                   scope := scope, exp := now + hours * 3600, iat := now } :
                  Core.CoreClaims) ≠ c' := fun hc => hne hc.symm
    simp [Core.DelegationToken.validate_token, jwtDecodeExp,
      Core.DelegationToken.create_token, jwtEncode, hne']
  · intro c c' hne
    have hne' : c ≠ c' := fun hc => hne hc.symm
    simp [VcVerifier.verify_vc, jwtDecodeSigOnly, jwtEncode, hne']
  · intro now tok d h
    unfold Core.DelegationToken.validate_token at h
    split at h
    · rename_i d' hdec
      obtain ⟨hd, hsig, _⟩ :=
        jwtDecodeExp_ok Core.CoreClaims.exp tok Core.JWT_SECRET now d' hdec
      cases h
      exact ⟨hd, hsig⟩
    · cases h
    · cases h
  · intro tok holder h
    unfold VcVerifier.verify_vc at h
    split at h
    · cases h
    · rename_i payload hdec
      obtain ⟨hp, hsig⟩ :=
        jwtDecodeSigOnly_ok tok VcVerifier.ISSUER_SECRET payload hdec
      subst hp
      split at h
      · cases h
        exact ⟨hsig, rfl⟩
      · cases h

/-- Witness for C6: enlarging the scope of alice's signed core delegation
token to `FULL_ACCESS` without re-signing, and enlarging the permission list
of her signed credential, are both rejected as invalid. -/
theorem claim6_tampering_rejected_witness :
    Core.DelegationToken.validate_token 0
        ⟨{ iss := "CAP", user_id := "u-alice-001", agent_id := "agent-123",
           scope := "FULL_ACCESS", exp := 3600, iat := 0 },
         Fixtures.coreToken.sig⟩
      = .errInvalidToken ∧
    VcVerifier.verify_vc
        ⟨{ issuer := "did:example:issuer",
           credentialSubject := { id := "did:example:alice",
                                  permissions := ["calendar.view", "calendar.write"] },
           issuanceDate := "2025-01-01T00:00:00Z",
           expirationDate := "2025-01-01T01:00:00Z" },
         Fixtures.vcGood.sig⟩
      = .error .invalidVc :=
  ⟨claim6_tampering_rejected.1 "u-alice-001" "agent-123" "READ_ACCOUNT" 1 0 0
     { iss := "CAP", user_id := "u-alice-001", agent_id := "agent-123",
       scope := "FULL_ACCESS", exp := 3600, iat := 0 } (by decide),
   claim6_tampering_rejected.2.1
     { issuer := "did:example:issuer",
       credentialSubject := { id := "did:example:alice",
                              permissions := ["calendar.view"] },
       issuanceDate := "2025-01-01T00:00:00Z",
       expirationDate := "2025-01-01T01:00:00Z" }
     { issuer := "did:example:issuer",
       credentialSubject := { id := "did:example:alice",
                              permissions := ["calendar.view", "calendar.write"] },
       issuanceDate := "2025-01-01T00:00:00Z",
       expirationDate := "2025-01-01T01:00:00Z" }
     (by decide)⟩
